import Mathlib

/-!
Shallow embedding of the HelloFresh delivery-tracker map subsystem.

Sources embedded:
- the map view component (src/unnamed/part_000): its one-time initialization
  effect, its update effect, the shouldRefitMap heuristic and the
  fitMapToPoints viewport-fit routine;
- the page component (src/app/page.tsx): the location-history append on a
  successful fetch and the history panel that shows slice(-10).reverse().

Coordinates are embedded as exact rationals (ℚ); the rendering engine's
bounds-containment test (Leaflet LatLngBounds.contains) uses inclusive
comparisons on all four edges, and is embedded that way.
-/

/-- A latitude/longitude pair (interface Location in the source). -/
structure Location where
  lat : ℚ
  lng : ℚ
deriving DecidableEq

/-- Customer location: a coordinate plus a free-text address
(interface CustomerLocation in the source). -/
structure CustomerLocation where
  lat : ℚ
  lng : ℚ
  address : String
deriving DecidableEq

/-- The coordinate part of a customer location. -/
def CustomerLocation.toLocation (c : CustomerLocation) : Location :=
  ⟨c.lat, c.lng⟩

/-- A rectangular visible-bounds region of the map surface, as returned by
map.getBounds(): south-west and north-east corners. -/
structure LatLngBounds where
  south : ℚ
  north : ℚ
  west : ℚ
  east : ℚ
deriving DecidableEq

/-- Leaflet LatLngBounds.contains on a single point: inclusive comparisons on
all four edges, so a point exactly on an edge counts as contained. -/
def LatLngBounds.containsPoint (b : LatLngBounds) (p : Location) : Bool :=
  decide (b.south ≤ p.lat) && decide (p.lat ≤ b.north) &&
  decide (b.west ≤ p.lng) && decide (p.lng ≤ b.east)

/-- Grow a bounds rectangle to include a point (Leaflet extend, used by
L.latLngBounds over a point list). -/
def LatLngBounds.extend (b : LatLngBounds) (p : Location) : LatLngBounds :=
  ⟨min b.south p.lat, max b.north p.lat, min b.west p.lng, max b.east p.lng⟩

/-- L.latLngBounds over a non-empty point list: start from the first point's
degenerate rectangle and extend with the rest. -/
def latLngBoundsOf (p : Location) (ps : List Location) : LatLngBounds :=
  ps.foldl LatLngBounds.extend ⟨p.lat, p.lat, p.lng, p.lng⟩

/-- Leaflet LatLngBounds.pad: grow each side by the given ratio of the
rectangle's height/width (bounds.pad(0.1) in the source). -/
def LatLngBounds.pad (b : LatLngBounds) (r : ℚ) : LatLngBounds :=
  let heightBuffer := (b.north - b.south) * r
  let widthBuffer := (b.east - b.west) * r
  ⟨b.south - heightBuffer, b.north + heightBuffer,
   b.west - widthBuffer, b.east + widthBuffer⟩

/-- JavaScript list.slice(-n): the last n elements (all of them when the list
is shorter than n). -/
def sliceLast (n : Nat) (l : List Location) : List Location :=
  l.drop (l.length - n)

/-- One snapshot of the data the component renders: driver position, customer
location, driver location history (oldest first), and the optional one-shot
user location. -/
structure Snapshot where
  driverLocation : Location
  customerLocation : CustomerLocation
  locationHistory : List Location
  userLocation : Option Location
deriving DecidableEq

/-- Coordinate-range predicate from the spec's data model: latitude in
[-90, 90] and longitude in [-180, 180]. -/
def Location.inRangeB (p : Location) : Bool :=
  decide (-90 ≤ p.lat) && decide (p.lat ≤ 90) &&
  decide (-180 ≤ p.lng) && decide (p.lng ≤ 180)

/-- A snapshot is valid when every coordinate it carries is in range. -/
def Snapshot.validB (snap : Snapshot) : Bool :=
  snap.driverLocation.inRangeB &&
  snap.customerLocation.toLocation.inRangeB &&
  snap.locationHistory.all Location.inRangeB &&
  (match snap.userLocation with
   | some u => u.inRangeB
   | none => true)

/-- A point overlay handle: current position, popup text, and the creation
counter value at the moment it was created (setLatLng moves a marker without
changing createdAt; only creating a fresh marker assigns a new one). -/
structure Marker where
  pos : Location
  popupContent : String
  createdAt : Nat
deriving DecidableEq

/-- The path overlay handle: its point list and creation counter value
(setLatLngs replaces the points without changing createdAt). -/
structure Polyline where
  points : List Location
  createdAt : Nat
deriving DecidableEq

/-- A viewport action performed on the map surface. -/
inductive ViewAction where
  /-- The setView performed when the map is created, at the midpoint center
  and zoom 13. -/
  | setViewInit (center : Location) (zoom : Nat)
  /-- map.fitBounds(paddedBounds, \x7b maxZoom, padding: [padX, padY] \x7d). -/
  | fitBoundsAction (b : LatLngBounds) (maxZoom : Nat) (padX : Nat) (padY : Nat)
  /-- The single-point branch of fitMapToPoints: setView on the driver. -/
  | setViewSingle (center : Location) (zoom : Nat)
deriving DecidableEq

/-- The controller's view state: the React component's refs and flags.
mapInstance mirrors mapInstanceRef (none = null); initDone mirrors the
component's boolean initialization flag; the four overlay refs mirror
driverMarkerRef, customerMarkerRef, userMarkerRef and pathRef; nextId is the
creation counter backing Marker.createdAt / Polyline.createdAt; viewLog is
the ordered log of viewport actions issued to the map surface. -/
structure ControllerState where
  initDone : Bool
  mapInstance : Option Unit
  driverMarker : Option Marker
  customerMarker : Option Marker
  userMarker : Option Marker
  pathOverlay : Option Polyline
  nextId : Nat
  viewLog : List ViewAction
deriving DecidableEq

/-- The state of a freshly constructed, not yet initialized controller: all
refs null, flag false. -/
def emptyState : ControllerState :=
  ⟨false, none, none, none, none, none, 0, []⟩

/-- Popup text bound to the driver marker. -/
def driverPopup : String := "🚗 Driver Location"

/-- Popup text bound to the customer marker, from its address. -/
def customerPopup (address : String) : String :=
  "🏠 Delivery Address<br><strong>" ++ address ++ "</strong>"

/-- Popup text bound to the user marker. -/
def userPopup : String := "📍 Your Location"

/-- shouldRefitMap from the source: false when the map instance is null or
the history has fewer than 2 points; otherwise true iff some of the last 3
history points is not contained in the current visible bounds. -/
def shouldRefitMap (mapInstance : Option LatLngBounds)
    (locationHistory : List Location) : Bool :=
  match mapInstance with
  | none => false
  | some currentBounds =>
    if locationHistory.length < 2 then false
    else
      (sliceLast 3 locationHistory).any
        (fun point => !(currentBounds.containsPoint point))

/-- The point set fitMapToPoints assembles: driver and customer first, then
every history point, then the user location when present. -/
def fitAllPoints (history : List Location) (driver : Location)
    (customer : CustomerLocation) (user : Option Location) : List Location :=
  driver :: customer.toLocation :: (history ++ user.toList)

/-- fitMapToPoints from the source: none when the map is null; with more than
one assembled point, fitBounds on the 10%-padded bounding box with maxZoom 18
and pixel padding [20, 20]; otherwise setView on the driver at zoom 15. -/
def fitMapToPoints (map : Bool) (history : List Location) (driver : Location)
    (customer : CustomerLocation) (user : Option Location) :
    Option ViewAction :=
  if !map then none
  else
    let allPoints := fitAllPoints history driver customer user
    if 1 < allPoints.length then
      let bounds :=
        latLngBoundsOf driver (customer.toLocation :: (history ++ user.toList))
      let paddedBounds := bounds.pad (1 / 10)
      some (ViewAction.fitBoundsAction paddedBounds 18 20 20)
    else
      some (ViewAction.setViewSingle driver 15)

/-- The one-time initialization effect of the component (guarded by the
mapRef null-check and the initialization flag): create the map at the
midpoint of driver and customer with zoom 13, create driver and customer
markers, the user marker iff a user location is present, the path overlay iff
the history has more than one point, then fit the map to all points and set
the flag. -/
def controllerInit (mapRefPresent : Bool) (snap : Snapshot)
    (s : ControllerState) : ControllerState :=
  if !mapRefPresent || s.initDone then s
  else
    let centerLat := (snap.driverLocation.lat + snap.customerLocation.lat) / 2
    let centerLng := (snap.driverLocation.lng + snap.customerLocation.lng) / 2
    let log0 := s.viewLog ++ [ViewAction.setViewInit ⟨centerLat, centerLng⟩ 13]
    let driverM : Marker := ⟨snap.driverLocation, driverPopup, s.nextId⟩
    let customerM : Marker :=
      ⟨snap.customerLocation.toLocation,
       customerPopup snap.customerLocation.address, s.nextId + 1⟩
    let userPair : Option Marker × Nat :=
      match snap.userLocation with
      | some u => (some ⟨u, userPopup, s.nextId + 2⟩, s.nextId + 3)
      | none => (none, s.nextId + 2)
    let pathPair : Option Polyline × Nat :=
      if 1 < snap.locationHistory.length then
        (some ⟨snap.locationHistory, userPair.2⟩, userPair.2 + 1)
      else
        (none, userPair.2)
    let log1 :=
      match fitMapToPoints true snap.locationHistory snap.driverLocation
          snap.customerLocation snap.userLocation with
      | some a => log0 ++ [a]
      | none => log0
    { initDone := true
      mapInstance := some ()
      driverMarker := some driverM
      customerMarker := some customerM
      userMarker := userPair.1
      pathOverlay := pathPair.1
      nextId := pathPair.2
      viewLog := log1 }

/-- Update-effect step: move the driver marker when its ref is non-null. -/
def updateDriver (snap : Snapshot) (s : ControllerState) : ControllerState :=
  match s.driverMarker with
  | some m => { s with driverMarker := some { m with pos := snap.driverLocation } }
  | none => s

/-- Update-effect step: move the customer marker and refresh its popup text
when its ref is non-null. -/
def updateCustomer (snap : Snapshot) (s : ControllerState) : ControllerState :=
  match s.customerMarker with
  | some m =>
    let moved : Marker :=
      { m with pos := snap.customerLocation.toLocation,
               popupContent := customerPopup snap.customerLocation.address }
    { s with customerMarker := some moved }
  | none => s

/-- Update-effect step: move the user marker only when a user location is
present and the marker already exists (it is never created here). -/
def updateUser (snap : Snapshot) (s : ControllerState) : ControllerState :=
  match snap.userLocation, s.userMarker with
  | some u, some m => { s with userMarker := some { m with pos := u } }
  | _, _ => s

/-- Update-effect step: with more than one history point, replace the path
overlay's point list in place when it exists, otherwise create it now; with
at most one point do nothing. -/
def updatePath (snap : Snapshot) (s : ControllerState) : ControllerState :=
  if 1 < snap.locationHistory.length then
    match s.pathOverlay with
    | some p => { s with pathOverlay := some { p with points := snap.locationHistory } }
    | none =>
      { s with pathOverlay := some ⟨snap.locationHistory, s.nextId⟩,
               nextId := s.nextId + 1 }
  else s

/-- Update-effect step: with more than one history point, run shouldRefitMap
against the bounds captured now and, when it returns true, fit the map to all
points. -/
def maybeRefit (currentBounds : LatLngBounds) (snap : Snapshot)
    (s : ControllerState) : ControllerState :=
  if 1 < snap.locationHistory.length then
    if shouldRefitMap (some currentBounds) snap.locationHistory then
      match fitMapToPoints true snap.locationHistory snap.driverLocation
          snap.customerLocation snap.userLocation with
      | some a => { s with viewLog := s.viewLog ++ [a] }
      | none => s
    else s
  else s

/-- The update effect of the component (applySnapshot in the spec): silently
returns the state unchanged when the map instance is null or the controller
is not initialized; otherwise performs the marker, path and refit steps in
source order. currentBounds is the visible bounds the map surface reports at
the time of the call. -/
def applySnapshot (currentBounds : LatLngBounds) (snap : Snapshot)
    (s : ControllerState) : ControllerState :=
  if s.mapInstance.isNone || !s.initDone then s
  else
    maybeRefit currentBounds snap
      (updatePath snap (updateUser snap (updateCustomer snap (updateDriver snap s))))

/-- The component's cleanup (dispose in the spec): remove the map instance
and clear the initialization flag; the stale overlay refs are left as the
source leaves them. -/
def dispose (s : ControllerState) : ControllerState :=
  { s with mapInstance := none, initDone := false }

/-- A sequence of update-effect runs, each with the visible bounds the map
reported at that moment and the snapshot delivered then. -/
def runUpdates (s : ControllerState) (us : List (LatLngBounds × Snapshot)) :
    ControllerState :=
  us.foldl (fun st u => applySnapshot u.1 u.2 st) s

/-- page.tsx history entry: coordinate plus fetch timestamp. -/
structure HistoryEntry where
  lat : ℚ
  lng : ℚ
  timestamp : Nat
deriving DecidableEq

/-- The only mutation of locationHistory in page.tsx: a successful fetch
appends the new driver position to the end (setLocationHistory of
prev ++ [entry]). -/
def appendHistory (prev : List HistoryEntry) (e : HistoryEntry) :
    List HistoryEntry :=
  prev ++ [e]

/-- The history panel's entry list: locationHistory.slice(-10).reverse(). -/
def historyPanelEntries (h : List HistoryEntry) : List HistoryEntry :=
  (h.drop (h.length - 10)).reverse

/-! Concrete fixtures used by witnesses and counterexamples. -/

/-- A valid initial snapshot: driver (49, -123), customer (50, -122), empty
history, no user location. -/
def snapA : Snapshot :=
  ⟨⟨49, -123⟩, ⟨50, -122, "123 Main St"⟩, [], none⟩

/-- A second valid snapshot with a moved driver and a 2-point history. -/
def snapB : Snapshot :=
  ⟨⟨49, -122⟩, ⟨50, -122, "123 Main St"⟩,
   [⟨49, -123⟩, ⟨49, -122⟩], none⟩

/-- A malformed snapshot: driver latitude 200 is outside [-90, 90]. -/
def snapBad : Snapshot :=
  ⟨⟨200, -123⟩, ⟨50, -122, "123 Main St"⟩, [], none⟩

/-- A small concrete bounds rectangle. -/
def boundsSmall : LatLngBounds := ⟨0, 1, 0, 1⟩

/-! Helper lemmas about the update-effect steps. -/

@[simp] theorem updateDriver_driverMarker (snap : Snapshot) (s : ControllerState) :
    (updateDriver snap s).driverMarker =
      s.driverMarker.map (fun m => { m with pos := snap.driverLocation }) := by
  cases h : s.driverMarker <;> simp [updateDriver, h]

@[simp] theorem updateDriver_customerMarker (snap : Snapshot) (s : ControllerState) :
    (updateDriver snap s).customerMarker = s.customerMarker := by
  cases h : s.driverMarker <;> simp [updateDriver, h]

@[simp] theorem updateDriver_pathOverlay (snap : Snapshot) (s : ControllerState) :
    (updateDriver snap s).pathOverlay = s.pathOverlay := by
  cases h : s.driverMarker <;> simp [updateDriver, h]

@[simp] theorem updateDriver_initDone (snap : Snapshot) (s : ControllerState) :
    (updateDriver snap s).initDone = s.initDone := by
  cases h : s.driverMarker <;> simp [updateDriver, h]

@[simp] theorem updateDriver_mapInstance (snap : Snapshot) (s : ControllerState) :
    (updateDriver snap s).mapInstance = s.mapInstance := by
  cases h : s.driverMarker <;> simp [updateDriver, h]

@[simp] theorem updateCustomer_customerMarker (snap : Snapshot) (s : ControllerState) :
    (updateCustomer snap s).customerMarker =
      s.customerMarker.map (fun m =>
        { m with pos := snap.customerLocation.toLocation,
                 popupContent := customerPopup snap.customerLocation.address }) := by
  cases h : s.customerMarker <;> simp [updateCustomer, h]

@[simp] theorem updateCustomer_driverMarker (snap : Snapshot) (s : ControllerState) :
    (updateCustomer snap s).driverMarker = s.driverMarker := by
  cases h : s.customerMarker <;> simp [updateCustomer, h]

@[simp] theorem updateCustomer_pathOverlay (snap : Snapshot) (s : ControllerState) :
    (updateCustomer snap s).pathOverlay = s.pathOverlay := by
  cases h : s.customerMarker <;> simp [updateCustomer, h]

@[simp] theorem updateCustomer_initDone (snap : Snapshot) (s : ControllerState) :
    (updateCustomer snap s).initDone = s.initDone := by
  cases h : s.customerMarker <;> simp [updateCustomer, h]

@[simp] theorem updateCustomer_mapInstance (snap : Snapshot) (s : ControllerState) :
    (updateCustomer snap s).mapInstance = s.mapInstance := by
  cases h : s.customerMarker <;> simp [updateCustomer, h]

@[simp] theorem updateUser_driverMarker (snap : Snapshot) (s : ControllerState) :
    (updateUser snap s).driverMarker = s.driverMarker := by
  unfold updateUser
  cases hu : snap.userLocation <;> cases hm : s.userMarker <;> simp

@[simp] theorem updateUser_customerMarker (snap : Snapshot) (s : ControllerState) :
    (updateUser snap s).customerMarker = s.customerMarker := by
  unfold updateUser
  cases hu : snap.userLocation <;> cases hm : s.userMarker <;> simp

@[simp] theorem updateUser_pathOverlay (snap : Snapshot) (s : ControllerState) :
    (updateUser snap s).pathOverlay = s.pathOverlay := by
  unfold updateUser
  cases hu : snap.userLocation <;> cases hm : s.userMarker <;> simp

@[simp] theorem updateUser_initDone (snap : Snapshot) (s : ControllerState) :
    (updateUser snap s).initDone = s.initDone := by
  unfold updateUser
  cases hu : snap.userLocation <;> cases hm : s.userMarker <;> simp

@[simp] theorem updateUser_mapInstance (snap : Snapshot) (s : ControllerState) :
    (updateUser snap s).mapInstance = s.mapInstance := by
  unfold updateUser
  cases hu : snap.userLocation <;> cases hm : s.userMarker <;> simp

@[simp] theorem updatePath_driverMarker (snap : Snapshot) (s : ControllerState) :
    (updatePath snap s).driverMarker = s.driverMarker := by
  unfold updatePath
  by_cases hl : 1 < snap.locationHistory.length
  · cases h : s.pathOverlay <;> simp [hl, h]
  · simp [hl]

@[simp] theorem updatePath_customerMarker (snap : Snapshot) (s : ControllerState) :
    (updatePath snap s).customerMarker = s.customerMarker := by
  unfold updatePath
  by_cases hl : 1 < snap.locationHistory.length
  · cases h : s.pathOverlay <;> simp [hl, h]
  · simp [hl]

@[simp] theorem updatePath_initDone (snap : Snapshot) (s : ControllerState) :
    (updatePath snap s).initDone = s.initDone := by
  unfold updatePath
  by_cases hl : 1 < snap.locationHistory.length
  · cases h : s.pathOverlay <;> simp [hl, h]
  · simp [hl]

@[simp] theorem updatePath_mapInstance (snap : Snapshot) (s : ControllerState) :
    (updatePath snap s).mapInstance = s.mapInstance := by
  unfold updatePath
  by_cases hl : 1 < snap.locationHistory.length
  · cases h : s.pathOverlay <;> simp [hl, h]
  · simp [hl]

theorem updatePath_pathOverlay_isSome (snap : Snapshot) (s : ControllerState) :
    (updatePath snap s).pathOverlay.isSome =
      (s.pathOverlay.isSome || decide (2 ≤ snap.locationHistory.length)) := by
  unfold updatePath
  by_cases hl : 1 < snap.locationHistory.length
  · have h2 : 2 ≤ snap.locationHistory.length := hl
    cases h : s.pathOverlay <;> simp [hl, h, decide_eq_true h2]
  · have h2 : ¬ 2 ≤ snap.locationHistory.length := hl
    simp [hl, decide_eq_false h2]

theorem updatePath_pathOverlay_of_some (snap : Snapshot) (s : ControllerState)
    (p : Polyline) (hp : s.pathOverlay = some p)
    (hl : 2 ≤ snap.locationHistory.length) :
    (updatePath snap s).pathOverlay = some ⟨snap.locationHistory, p.createdAt⟩ := by
  have hl' : 1 < snap.locationHistory.length := hl
  unfold updatePath
  simp [hl', hp]

@[simp] theorem maybeRefit_driverMarker (b : LatLngBounds) (snap : Snapshot)
    (s : ControllerState) : (maybeRefit b snap s).driverMarker = s.driverMarker := by
  unfold maybeRefit
  split
  · split
    · split <;> rfl
    · rfl
  · rfl

@[simp] theorem maybeRefit_customerMarker (b : LatLngBounds) (snap : Snapshot)
    (s : ControllerState) : (maybeRefit b snap s).customerMarker = s.customerMarker := by
  unfold maybeRefit
  split
  · split
    · split <;> rfl
    · rfl
  · rfl

@[simp] theorem maybeRefit_pathOverlay (b : LatLngBounds) (snap : Snapshot)
    (s : ControllerState) : (maybeRefit b snap s).pathOverlay = s.pathOverlay := by
  unfold maybeRefit
  split
  · split
    · split <;> rfl
    · rfl
  · rfl

@[simp] theorem maybeRefit_initDone (b : LatLngBounds) (snap : Snapshot)
    (s : ControllerState) : (maybeRefit b snap s).initDone = s.initDone := by
  unfold maybeRefit
  split
  · split
    · split <;> rfl
    · rfl
  · rfl

@[simp] theorem maybeRefit_mapInstance (b : LatLngBounds) (snap : Snapshot)
    (s : ControllerState) : (maybeRefit b snap s).mapInstance = s.mapInstance := by
  unfold maybeRefit
  split
  · split
    · split <;> rfl
    · rfl
  · rfl

/-! Helper lemmas about applySnapshot and controllerInit. -/

theorem applySnapshot_guard_false (b : LatLngBounds) (snap : Snapshot)
    (s : ControllerState) (hi : s.initDone = true) (hm : s.mapInstance = some ()) :
    applySnapshot b snap s =
      maybeRefit b snap
        (updatePath snap (updateUser snap (updateCustomer snap (updateDriver snap s)))) := by
  unfold applySnapshot
  rw [if_neg]
  simp [hi, hm]

@[simp] theorem applySnapshot_initDone (b : LatLngBounds) (snap : Snapshot)
    (s : ControllerState) : (applySnapshot b snap s).initDone = s.initDone := by
  unfold applySnapshot
  split
  · rfl
  · simp

@[simp] theorem applySnapshot_mapInstance (b : LatLngBounds) (snap : Snapshot)
    (s : ControllerState) : (applySnapshot b snap s).mapInstance = s.mapInstance := by
  unfold applySnapshot
  split
  · rfl
  · simp

theorem applySnapshot_driverMarker (b : LatLngBounds) (snap : Snapshot)
    (s : ControllerState) (hi : s.initDone = true) (hm : s.mapInstance = some ()) :
    (applySnapshot b snap s).driverMarker =
      s.driverMarker.map (fun m => { m with pos := snap.driverLocation }) := by
  rw [applySnapshot_guard_false b snap s hi hm]
  simp

theorem applySnapshot_customerMarker (b : LatLngBounds) (snap : Snapshot)
    (s : ControllerState) (hi : s.initDone = true) (hm : s.mapInstance = some ()) :
    (applySnapshot b snap s).customerMarker =
      s.customerMarker.map (fun m =>
        { m with pos := snap.customerLocation.toLocation,
                 popupContent := customerPopup snap.customerLocation.address }) := by
  rw [applySnapshot_guard_false b snap s hi hm]
  simp

theorem applySnapshot_pathOverlay_isSome (b : LatLngBounds) (snap : Snapshot)
    (s : ControllerState) (hi : s.initDone = true) (hm : s.mapInstance = some ()) :
    (applySnapshot b snap s).pathOverlay.isSome =
      (s.pathOverlay.isSome || decide (2 ≤ snap.locationHistory.length)) := by
  rw [applySnapshot_guard_false b snap s hi hm]
  simp [updatePath_pathOverlay_isSome]

theorem controllerInit_of_initDone (r : Bool) (snap : Snapshot)
    (s : ControllerState) (h : s.initDone = true) : controllerInit r snap s = s := by
  unfold controllerInit
  rw [if_pos]
  simp [h]

theorem controllerInit_true_initDone (snap : Snapshot) (s : ControllerState) :
    (controllerInit true snap s).initDone = true := by
  unfold controllerInit
  split
  next h => simpa using h
  next => rfl

theorem controllerInit_empty_mapInstance (snap : Snapshot) :
    (controllerInit true snap emptyState).mapInstance = some () := rfl

theorem controllerInit_empty_driverMarker (snap : Snapshot) :
    (controllerInit true snap emptyState).driverMarker =
      some ⟨snap.driverLocation, driverPopup, 0⟩ := rfl

theorem controllerInit_empty_customerMarker (snap : Snapshot) :
    (controllerInit true snap emptyState).customerMarker =
      some ⟨snap.customerLocation.toLocation,
            customerPopup snap.customerLocation.address, 1⟩ := rfl

theorem controllerInit_empty_pathOverlay_isSome (snap : Snapshot) :
    (controllerInit true snap emptyState).pathOverlay.isSome =
      decide (2 ≤ snap.locationHistory.length) := by
  by_cases hl : 1 < snap.locationHistory.length
  · have h2 : 2 ≤ snap.locationHistory.length := hl
    simp [controllerInit, emptyState, hl, decide_eq_true h2]
  · have h2 : ¬ 2 ≤ snap.locationHistory.length := hl
    simp [controllerInit, emptyState, hl, decide_eq_false h2]

theorem controllerInit_empty_viewLog_head (snap : Snapshot) :
    (controllerInit true snap emptyState).viewLog.head? =
      some (ViewAction.setViewInit
        ⟨(snap.driverLocation.lat + snap.customerLocation.lat) / 2,
         (snap.driverLocation.lng + snap.customerLocation.lng) / 2⟩ 13) := by
  unfold controllerInit
  rw [if_neg (by simp [emptyState])]
  simp [emptyState]
  split <;> simp

theorem runUpdates_pathOverlay_isSome (us : List (LatLngBounds × Snapshot)) :
    ∀ s : ControllerState, s.initDone = true → s.mapInstance = some () →
      ((runUpdates s us).pathOverlay.isSome = true ↔
        s.pathOverlay.isSome = true ∨
          ∃ u ∈ us, 2 ≤ (Prod.snd u).locationHistory.length) := by
  induction us with
  | nil =>
    intro s hi hm
    simp [runUpdates]
  | cons u rest ih =>
    intro s hi hm
    have hstep : runUpdates s (u :: rest) =
        runUpdates (applySnapshot u.1 u.2 s) rest := rfl
    rw [hstep,
        ih (applySnapshot u.1 u.2 s)
          (by rw [applySnapshot_initDone]; exact hi)
          (by rw [applySnapshot_mapInstance]; exact hm),
        applySnapshot_pathOverlay_isSome u.1 u.2 s hi hm]
    simp [List.mem_cons, or_assoc]

/-! Claim theorems. -/

/-- C1 counterexample: on an initialized controller whose History holds a
single point lying outside the current visible bounds, shouldRefitMap returns
false even though one of the last 3 History points lies outside the bounds,
so the claimed iff fails as stated. -/
theorem shouldRefit_iff_counterexample :
    shouldRefitMap (some boundsSmall) [⟨5, 5⟩] = false ∧
      ∃ p ∈ sliceLast 3 [(⟨5, 5⟩ : Location)],
        boundsSmall.containsPoint p = false := by
  decide

/-- C1 (amended): whenever History has at least 2 points, shouldRefitMap on
the current visible bounds returns true iff at least one of the last 3
History points is not contained in the bounds; containment is edge-inclusive,
so a point exactly on the bounds edge does not by itself trigger a refit. -/
theorem shouldRefit_iff_of_two_points (b : LatLngBounds) (h : List Location)
    (hl : 2 ≤ h.length) :
    (shouldRefitMap (some b) h = true ↔
      ∃ p ∈ sliceLast 3 h, b.containsPoint p = false) := by
  have hn : ¬ h.length < 2 := by omega
  unfold shouldRefitMap
  simp [hn, List.any_eq_true, Bool.not_eq_true']

/-- Witness for the amended C1 at a concrete 2-point history: the first point
sits exactly on the bounds edge (contained), the second lies outside, and
shouldRefitMap returns true. -/
theorem shouldRefit_iff_of_two_points_witness :
    2 ≤ [(⟨1, 1⟩ : Location), ⟨9, 9⟩].length ∧
      (shouldRefitMap (some ⟨0, 1, 0, 1⟩) [⟨1, 1⟩, ⟨9, 9⟩] = true ↔
        ∃ p ∈ sliceLast 3 [(⟨1, 1⟩ : Location), ⟨9, 9⟩],
          LatLngBounds.containsPoint ⟨0, 1, 0, 1⟩ p = false) :=
  ⟨by decide, shouldRefit_iff_of_two_points ⟨0, 1, 0, 1⟩ [⟨1, 1⟩, ⟨9, 9⟩] (by decide)⟩

/-- C2: shouldRefitMap returns false whenever the history has fewer than 2
points, for every driver position, customer location, optional user location
and current bounds — even when the lone history point lies outside them. -/
theorem shouldRefit_false_of_short_history (driver : Location)
    (customer : CustomerLocation) (user : Option Location)
    (mi : Option LatLngBounds) (h : List Location) (hl : h.length < 2) :
    shouldRefitMap mi h = false := by
  unfold shouldRefitMap
  cases mi with
  | none => rfl
  | some bb => simp [hl]

/-- Witness for C2 at a concrete input whose single history point lies far
outside the bounds. -/
theorem shouldRefit_false_of_short_history_witness :
    [(⟨99, 99⟩ : Location)].length < 2 ∧
      shouldRefitMap (some ⟨0, 2, 0, 2⟩) [⟨99, 99⟩] = false :=
  ⟨by decide,
   shouldRefit_false_of_short_history ⟨0, 0⟩ ⟨0, 0, ""⟩ none
     (some ⟨0, 2, 0, 2⟩) [⟨99, 99⟩] (by decide)⟩

/-- C3 counterexample: after dispose, the update effect does not fail with a
surfaced precondition error — it silently no-ops, returning the disposed
state unchanged (and likewise for a call before initialization). -/
theorem applySnapshot_after_dispose_counterexample :
    applySnapshot boundsSmall snapB (dispose (controllerInit true snapA emptyState)) =
      dispose (controllerInit true snapA emptyState) ∧
    applySnapshot boundsSmall snapB emptyState = emptyState :=
  ⟨rfl, rfl⟩

/-- C3 (amended): calling applySnapshot before initialization or after
dispose is a silent no-op — the call returns without surfacing any error and
leaves the controller state completely unchanged (so the state is not
corrupted). -/
theorem applySnapshot_noop_of_not_ready (b : LatLngBounds) (snap : Snapshot)
    (s : ControllerState) (h : s.initDone = false ∨ s.mapInstance = none) :
    applySnapshot b snap s = s := by
  unfold applySnapshot
  rcases h with h | h <;> simp [h]

/-- Witness for the amended C3 on a concrete disposed controller state. -/
theorem applySnapshot_noop_of_not_ready_witness :
    (dispose (controllerInit true snapA emptyState)).initDone = false ∧
      applySnapshot boundsSmall snapA (dispose (controllerInit true snapA emptyState)) =
        dispose (controllerInit true snapA emptyState) :=
  ⟨rfl,
   applySnapshot_noop_of_not_ready boundsSmall snapA
     (dispose (controllerInit true snapA emptyState)) (Or.inl rfl)⟩

/-- C4 counterexample: a snapshot whose driver latitude is 200 (outside
[-90, 90]) is not rejected — the update effect moves the driver overlay to
the malformed position, away from its prior valid position. -/
theorem applySnapshot_malformed_counterexample :
    snapBad.validB = false ∧
      (controllerInit true snapA emptyState).driverMarker =
        some ⟨⟨49, -123⟩, driverPopup, 0⟩ ∧
      (applySnapshot boundsSmall snapBad (controllerInit true snapA emptyState)).driverMarker =
        some ⟨⟨200, -123⟩, driverPopup, 0⟩ :=
  ⟨by decide, rfl, rfl⟩

/-- C4 (amended): applySnapshot performs no coordinate-range validation: on
an initialized controller, a snapshot carrying out-of-range coordinates is
applied to the overlays exactly like a valid one — the driver and customer
overlays move to the snapshot's positions (no rejection and no clamping). -/
theorem applySnapshot_no_range_validation (b : LatLngBounds) (snap : Snapshot)
    (s : ControllerState) (hbad : snap.validB = false) (hi : s.initDone = true)
    (hm : s.mapInstance = some ()) :
    (applySnapshot b snap s).driverMarker =
      s.driverMarker.map (fun m => { m with pos := snap.driverLocation }) ∧
    (applySnapshot b snap s).customerMarker =
      s.customerMarker.map (fun m =>
        { m with pos := snap.customerLocation.toLocation,
                 popupContent := customerPopup snap.customerLocation.address }) :=
  ⟨applySnapshot_driverMarker b snap s hi hm,
   applySnapshot_customerMarker b snap s hi hm⟩

/-- Witness for the amended C4: the latitude-200 snapshot applied to the
initialized scenario-A controller. -/
theorem applySnapshot_no_range_validation_witness :
    snapBad.validB = false ∧
      ((applySnapshot boundsSmall snapBad (controllerInit true snapA emptyState)).driverMarker =
        (controllerInit true snapA emptyState).driverMarker.map
          (fun m => { m with pos := snapBad.driverLocation }) ∧
      (applySnapshot boundsSmall snapBad (controllerInit true snapA emptyState)).customerMarker =
        (controllerInit true snapA emptyState).customerMarker.map
          (fun m => { m with pos := snapBad.customerLocation.toLocation,
                             popupContent := customerPopup snapBad.customerLocation.address })) :=
  ⟨by decide,
   applySnapshot_no_range_validation boundsSmall snapBad
     (controllerInit true snapA emptyState) (by decide) rfl rfl⟩

/-- C5: for valid snapshots S1 then S2, after initialization with S1 and an
update with S2 the driver overlay's position equals S2's driver position
exactly, and the overlay keeps the creation identity it got at
initialization — it is moved, not destroyed and recreated. -/
theorem driver_marker_moved_exactly (S1 S2 : Snapshot) (b : LatLngBounds)
    (h1 : S1.validB = true) (h2 : S2.validB = true) :
    (controllerInit true S1 emptyState).driverMarker =
      some ⟨S1.driverLocation, driverPopup, 0⟩ ∧
    (applySnapshot b S2 (controllerInit true S1 emptyState)).driverMarker =
      some ⟨S2.driverLocation, driverPopup, 0⟩ := by
  refine ⟨controllerInit_empty_driverMarker S1, ?_⟩
  rw [applySnapshot_driverMarker b S2 (controllerInit true S1 emptyState)
      (controllerInit_true_initDone S1 emptyState)
      (controllerInit_empty_mapInstance S1),
    controllerInit_empty_driverMarker S1]
  rfl

/-- Witness for C5 at the concrete snapshots snapA then snapB. -/
theorem driver_marker_moved_exactly_witness :
    snapA.validB = true ∧ snapB.validB = true ∧
      ((controllerInit true snapA emptyState).driverMarker =
        some ⟨snapA.driverLocation, driverPopup, 0⟩ ∧
      (applySnapshot boundsSmall snapB (controllerInit true snapA emptyState)).driverMarker =
        some ⟨snapB.driverLocation, driverPopup, 0⟩) :=
  ⟨by decide, by decide,
   driver_marker_moved_exactly snapA snapB boundsSmall (by decide) (by decide)⟩

/-- C6: the initialization effect is idempotent — running it again on an
already-initialized controller is a guarded no-op, so the state after a
second run (with any snapshot, whether or not the display region is present)
is identical to the state after the first run. -/
theorem controllerInit_idempotent (r : Bool) (snap2 snap1 : Snapshot)
    (s : ControllerState) :
    controllerInit r snap2 (controllerInit true snap1 s) =
      controllerInit true snap1 s :=
  controllerInit_of_initDone r snap2 (controllerInit true snap1 s)
    (controllerInit_true_initDone snap1 s)

/-- C7: along any run that initializes with S0 and then applies any sequence
of snapshots, the path overlay exists iff some delivered History (the initial
one included) had at least 2 points; moreover an update whose History has at
least 2 points, applied when the overlay already exists, replaces the
overlay's point list in place, keeping its creation identity. -/
theorem path_overlay_lifecycle :
    (∀ (S0 : Snapshot) (us : List (LatLngBounds × Snapshot)),
      ((runUpdates (controllerInit true S0 emptyState) us).pathOverlay.isSome = true ↔
        2 ≤ S0.locationHistory.length ∨
          ∃ u ∈ us, 2 ≤ (Prod.snd u).locationHistory.length)) ∧
    (∀ (b : LatLngBounds) (snap : Snapshot) (s : ControllerState) (p : Polyline),
      s.initDone = true → s.mapInstance = some () → s.pathOverlay = some p →
      2 ≤ snap.locationHistory.length →
      (applySnapshot b snap s).pathOverlay = some ⟨snap.locationHistory, p.createdAt⟩) := by
  constructor
  · intro S0 us
    rw [runUpdates_pathOverlay_isSome us (controllerInit true S0 emptyState)
        (controllerInit_true_initDone S0 emptyState)
        (controllerInit_empty_mapInstance S0),
      controllerInit_empty_pathOverlay_isSome S0]
    simp
  · intro b snap s p hi hm hp hl
    rw [applySnapshot_guard_false b snap s hi hm, maybeRefit_pathOverlay]
    have hp' : (updateUser snap (updateCustomer snap (updateDriver snap s))).pathOverlay =
        some p := by simp [hp]
    exact updatePath_pathOverlay_of_some snap _ p hp' hl

/-- Witness for C7: the second conjunct applied on a controller initialized
with snapB (path overlay present) and updated with snapB again. -/
theorem path_overlay_lifecycle_witness :
    (controllerInit true snapB emptyState).pathOverlay =
      some ⟨[⟨49, -123⟩, ⟨49, -122⟩], 2⟩ ∧
    (applySnapshot boundsSmall snapB (controllerInit true snapB emptyState)).pathOverlay =
      some ⟨snapB.locationHistory, 2⟩ :=
  ⟨rfl,
   path_overlay_lifecycle.2 boundsSmall snapB (controllerInit true snapB emptyState)
     ⟨[⟨49, -123⟩, ⟨49, -122⟩], 2⟩
     (controllerInit_true_initDone snapB emptyState)
     (controllerInit_empty_mapInstance snapB) rfl (by decide)⟩

/-- C8: initialization computes the starting viewport center as the
arithmetic midpoint of the driver and customer coordinates, issued as the
first viewport action, before the fit-to-points adjustment; in scenario A
(driver (49.28, -123.12), customer (49.30, -123.10), empty history, no user
location) exactly the driver and customer overlays are created, no user or
path overlay, and the initial center is (49.29, -123.11) at zoom 13. -/
theorem init_center_midpoint :
    (∀ snap : Snapshot,
      (controllerInit true snap emptyState).viewLog.head? =
        some (ViewAction.setViewInit
          ⟨(snap.driverLocation.lat + snap.customerLocation.lat) / 2,
           (snap.driverLocation.lng + snap.customerLocation.lng) / 2⟩ 13)) ∧
    (∀ addr : String,
      (controllerInit true ⟨⟨49.28, -123.12⟩, ⟨49.30, -123.10, addr⟩, [], none⟩
          emptyState).driverMarker = some ⟨⟨49.28, -123.12⟩, driverPopup, 0⟩ ∧
      (controllerInit true ⟨⟨49.28, -123.12⟩, ⟨49.30, -123.10, addr⟩, [], none⟩
          emptyState).customerMarker = some ⟨⟨49.30, -123.10⟩, customerPopup addr, 1⟩ ∧
      (controllerInit true ⟨⟨49.28, -123.12⟩, ⟨49.30, -123.10, addr⟩, [], none⟩
          emptyState).userMarker = none ∧
      (controllerInit true ⟨⟨49.28, -123.12⟩, ⟨49.30, -123.10, addr⟩, [], none⟩
          emptyState).pathOverlay = none ∧
      (controllerInit true ⟨⟨49.28, -123.12⟩, ⟨49.30, -123.10, addr⟩, [], none⟩
          emptyState).viewLog.head? =
        some (ViewAction.setViewInit ⟨49.29, -123.11⟩ 13)) := by
  constructor
  · exact controllerInit_empty_viewLog_head
  · intro addr
    refine ⟨rfl, rfl, rfl, rfl, ?_⟩
    rw [controllerInit_empty_viewLog_head]
    norm_num

/-- C9: the point set assembled by fitMapToPoints always starts with the
driver and customer coordinates, so it has at least 2 entries; hence for
every input (map present) the multi-point branch is taken — fitBounds on the
10%-padded box with maxZoom 18 and pixel padding [20, 20] — and the
single-point setView branch is unreachable. -/
theorem fitMapToPoints_always_fits_bounds (h : List Location) (d : Location)
    (c : CustomerLocation) (u : Option Location) :
    2 ≤ (fitAllPoints h d c u).length ∧
      ∃ pb, fitMapToPoints true h d c u =
        some (ViewAction.fitBoundsAction pb 18 20 20) := by
  have hl : 1 < (fitAllPoints h d c u).length := by
    simp [fitAllPoints]
  constructor
  · exact hl
  · unfold fitMapToPoints
    simp only [Bool.not_true, Bool.false_eq_true, if_false, hl, if_true]
    exact ⟨_, rfl⟩

/-- C10: the in-memory location history grows without bound — every
successful fetch appends exactly one entry at the end and nothing is ever
removed (a run of fetches starting from any history yields exactly that
history followed by the fetched entries, so its length is the starting
length plus the number of fetches) — while the history panel shows the 10
most recent entries in newest-first order, never more than 10. -/
theorem history_append_and_panel :
    (∀ (h0 es : List HistoryEntry), es.foldl appendHistory h0 = h0 ++ es) ∧
    (∀ h : List HistoryEntry,
      historyPanelEntries h = h.reverse.take 10 ∧
      (historyPanelEntries h).length ≤ 10) := by
  constructor
  · intro h0 es
    induction es generalizing h0 with
    | nil => simp
    | cons e es ih =>
      rw [List.foldl_cons, ih]
      simp [appendHistory]
  · intro h
    have hp : historyPanelEntries h = h.reverse.take 10 := by
      unfold historyPanelEntries
      rw [List.take_reverse]
    refine ⟨hp, ?_⟩
    rw [hp]
    simp [List.length_take]
